import Mathlib

/-!
Verification model of the Noviro e-commerce chatbot orchestrator
(`app/services/chat/chatbot.py`) and the knowledge-source search layer
(`app/utils/knowledge/*.py`).

External effects (the OpenAI classification/translation calls, the four
vector-store searches, the Abacus generation backend, and the Redis-backed
session store) are modelled as an explicit per-request oracle `Env`: each
field records the outcome the external world would produce for the single
call the orchestrator makes to it on this request.  Every node of the
LangGraph workflow becomes a pure function on `ChatbotState`, and the
compiled graph becomes `runGraph`, wired exactly as `_build_graph` wires the
conditional edges.  Observable side effects (which knowledge sources were
queried, the prompt sent to the generator, the conversation-id write, the
history update) are collected in a `Trace`.
-/

namespace Noviro

/-- Python `s.lower()` (per-character lowering, as for the ASCII strings the
orchestrator compares). -/
def strToLower (s : String) : String := ⟨s.data.map Char.toLower⟩

/-- Python `s.upper()`. -/
def strToUpper (s : String) : String := ⟨s.data.map Char.toUpper⟩

/-- Python `s[:n]`. -/
def strTake (s : String) (n : Nat) : String := ⟨s.data.take n⟩

/-- Python `s.strip()`: drop whitespace from both ends. -/
def pyStrip (s : String) : String :=
  ⟨((s.data.dropWhile Char.isWhitespace).reverse.dropWhile
      Char.isWhitespace).reverse⟩

/-- One stored exchange, `HistoryItem` in `chatbot_schema.py`. -/
structure HistoryItem where
  message : String
  response : String
  deriving Repr, DecidableEq

/-- The parsed classification JSON, after the `result.get(...)` defaults of
`guardrail_check_node` have been applied (`language`, `is_followup`,
`is_ecommerce`; `reason` is carried but never read by the orchestrator). -/
structure ClassificationResult where
  language : String
  is_followup : Bool
  is_ecommerce : Bool
  reason : String
  deriving Repr, DecidableEq

/-- Python `d[k] = v` on an association list: update in place if the key is
present, else append (insertion order preserved, as for a Python dict). -/
def dictSet (d : List (String × α)) (k : String) (v : α) : List (String × α) :=
  match d with
  | [] => [(k, v)]
  | p :: rest => if p.1 = k then (k, v) :: rest else p :: dictSet rest k v

/-- Python `d.get(k)` on an association list. -/
def dictGet (d : List (String × α)) (k : String) : Option α :=
  match d with
  | [] => none
  | p :: rest => if p.1 = k then some p.2 else dictGet rest k

/-- `ChatbotState`, the LangGraph state `TypedDict` of `chatbot.py`
(the unused `messages` sequence is omitted; it is initialised to `[]`
and never read or written by any node). -/
structure ChatbotState where
  user_query : String
  user_id : String
  conversation_id : Option String
  user_language : String
  english_query : String
  is_ecommerce_query : Bool
  is_followup : Bool
  skip_retrieval : Bool
  retrieved_contexts : List (String × List String)
  final_response : String
  metadata : List (String × String)
  deriving Repr, DecidableEq

/-- A generic vector-search result, `SearchResult` in `knowledge_schema.py`.
Metadata values are modelled by their rendered string form (ChromaDB flattened
metadata holds scalars; the orchestrator only ever interpolates them into
f-strings).  Distances and scores are exact rationals. -/
structure SearchResult where
  id : String
  data : List (String × String)
  relevance_score : ℚ
  deriving Repr, DecidableEq

/-- Outcome of one external backend call that either returns a value or
raises: `Except.error` is the raised-exception case. -/
abbrev Call (α : Type) := Except String α

/-- Result dict of `AbacusAIClient.get_conversation_response`. -/
structure AbacusResult where
  answer : String
  conversation_id : Option String
  success : Bool
  error : Option String
  deriving Repr, DecidableEq

/-- The three ways the Abacus backend can behave on the single
`evaluate_prompt` call of a request: client never initialised, a successful
answer, or a raised exception. -/
inductive AbacusBackend where
  | noClient
  | ok (answer : String)
  | err (msg : String)
  deriving Repr, DecidableEq

/-- `AbacusAIClient.get_conversation_response`: wraps `evaluate_prompt`,
catches every exception, and always passes the caller's `conversation_id`
back unchanged (`evaluate_prompt` does not manage conversation ids). -/
def get_conversation_response (backend : AbacusBackend) (message : String)
    (conversation_id : Option String) : AbacusResult :=
  match backend with
  | .noClient =>
      ⟨"", conversation_id, false, some "Abacus client not initialized"⟩
  | .ok answer =>
      let _ := message
      ⟨answer, conversation_id, true, none⟩
  | .err e => ⟨"", conversation_id, false, some e⟩

/-- The per-request oracle: the outcome of each external call the
orchestrator can make while processing one request. -/
structure Env where
  /-- `cache_manager.get_history(user_id)`: the stored recent history. -/
  recent_history : List HistoryItem
  /-- The combined classification call (`openai_client.chat` + `json.loads`):
  a parsed result, or a raised/parse exception. -/
  classification : Call ClassificationResult
  /-- The translate-to-English call made for a non-English query. -/
  translation : Call String
  /-- `product_knowledge_manager.search_products(query, 3)`. -/
  productsR : Call (List SearchResult)
  /-- `service_knowledge_manager.search_services(query, 3)`. -/
  servicesR : Call (List SearchResult)
  /-- `consultation_knowledge_manager.search_consultations(query, 2)`. -/
  consultationsR : Call (List SearchResult)
  /-- `specialist_knowledge_manager.search_specialists(query, 2)`. -/
  specialistsR : Call (List SearchResult)
  /-- `session_mgr.get_conversation_id(user_id)`: the stored handle. -/
  stored_conversation_id : Option String
  /-- The Abacus generation backend's behaviour. -/
  abacus : AbacusBackend
  /-- The translate-the-rejection-message call of `reject_query_node`. -/
  reject_translation : Call String
  /-- The configured bound on persisted history length. -/
  history_bound : Nat

/-- `guardrail_check_node`: classify (language, follow-up, e-commerce) in one
call; on a non-English language, translate the query for vector search
(translation failure falls back to the original query); on any
classification failure, fail open to English / non-follow-up / e-commerce. -/
def guardrail_check_node (env : Env) (s : ChatbotState) : ChatbotState :=
  match env.classification with
  | .ok result =>
      let s := { s with
        user_language := result.language
        is_followup := result.is_followup
        is_ecommerce_query := result.is_ecommerce
        skip_retrieval := result.is_followup }
      if strToLower s.user_language ≠ "english" then
        match env.translation with
        | .ok english_query => { s with english_query := pyStrip english_query }
        | .error _ => { s with english_query := s.user_query }
      else
        { s with english_query := s.user_query }
  | .error _ =>
      { s with
        user_language := "English"
        english_query := s.user_query
        is_followup := false
        is_ecommerce_query := true
        skip_retrieval := false }

/-- `route_after_guardrail`: the conditional-edge router. -/
def route_after_guardrail (s : ChatbotState) : String :=
  if !s.is_ecommerce_query then "reject"
  else if s.skip_retrieval || s.is_followup then "direct_response"
  else "retrieve"

/-- Python `d.get(k)` interpolated into an f-string: a missing key renders
as `"None"`. -/
def pyRepr (d : List (String × String)) (k : String) : String :=
  match dictGet d k with
  | some v => v
  | none => "None"

/-- Python `d.get(k, default)`. -/
def pyGetD (d : List (String × String)) (k : String) (dflt : String) : String :=
  match dictGet d k with
  | some v => v
  | none => dflt

/-- The snippet format for one product result in `retrieve_knowledge_node`. -/
def formatProduct (p : SearchResult) : String :=
  pyRepr p.data "name" ++ " - $" ++ pyRepr p.data "price" ++ " - " ++
    strTake (pyGetD p.data "description" "") 100

/-- The snippet format for one service result in `retrieve_knowledge_node`. -/
def formatService (s : SearchResult) : String :=
  pyRepr s.data "name" ++ " - $" ++ pyRepr s.data "price" ++ " - " ++
    strTake (pyGetD s.data "description" "") 100

/-- The snippet format for one consultation result. -/
def formatConsultation (c : SearchResult) : String :=
  pyRepr c.data "name" ++ " - $" ++ pyRepr c.data "price" ++ " (" ++
    pyRepr c.data "duration" ++ " min)"

/-- The snippet format for one specialist result. -/
def formatSpecialist (s : SearchResult) : String :=
  pyRepr s.data "name" ++ " - " ++ pyRepr s.data "experience" ++
    " (Rating: " ++ pyRepr s.data "rating" ++ ")"

/-- One per-source block of `retrieve_knowledge_node`: its own
`try/except`; a non-empty result list stores the formatted snippets under
`key`, an empty list stores nothing, a raised exception stores nothing and
records the message under `errKey` in the request metadata. -/
def storeSource (key errKey : String) (fmt : SearchResult → String)
    (outcome : Call (List SearchResult)) (s : ChatbotState) : ChatbotState :=
  match outcome with
  | .ok results =>
      if results ≠ [] then
        { s with retrieved_contexts :=
            dictSet s.retrieved_contexts key (results.map fmt) }
      else s
  | .error e => { s with metadata := dictSet s.metadata errKey e }

/-- `retrieve_knowledge_node`: query all four knowledge sources with the
(possibly translated) `english_query`; each source is wrapped in its own
`try/except`, so one source's failure never aborts the others.  The second
component records the search calls issued, as (source, query) pairs. -/
def retrieve_knowledge_node (env : Env) (s : ChatbotState) :
    ChatbotState × List (String × String) :=
  let query := s.english_query
  let s := storeSource "products" "product_error" formatProduct env.productsR s
  let s := storeSource "services" "service_error" formatService env.servicesR s
  let s := storeSource "consultations" "consultation_error" formatConsultation
    env.consultationsR s
  let s := storeSource "specialists" "specialist_error" formatSpecialist
    env.specialistsR s
  (s, [("products", query), ("services", query),
       ("consultations", query), ("specialists", query)])

/-- The `context_parts` list of `generate_response_node`: one block per
source whose snippet list is non-empty, headed by the upper-cased source
name, in the insertion order of `retrieved_contexts`. -/
def context_parts (contexts : List (String × List String)) : List String :=
  contexts.filterMap fun p =>
    if p.2 ≠ [] then some (strToUpper p.1 ++ ":\n" ++ String.intercalate "\n" p.2)
    else none

/-- Python `l[-3:]`: the trailing window of at most three entries. -/
def lastN (n : Nat) (l : List α) : List α := l.drop (l.length - n)

/-- The `history_lines` rendering: two lines per exchange. -/
def historyLines (hs : List HistoryItem) : List String :=
  (hs.map fun h => ["User: " ++ h.message, "Assistant: " ++ h.response]).flatten

/-- The `prompt_parts` list of `generate_response_node`: prior conversation
(last three exchanges) when present, the per-source context blocks when
present, the current (original) user query, the respond-in-this-language
directive, and the closing instruction. -/
def buildPromptParts (recent_history : List HistoryItem)
    (contexts : List (String × List String))
    (user_query user_language : String) : List String :=
  let combined_context :=
    if context_parts contexts ≠ [] then
      String.intercalate "\n\n" (context_parts contexts)
    else ""
  let conversation_history :=
    if recent_history ≠ [] then
      String.intercalate "\n" (historyLines (lastN 3 recent_history))
    else ""
  (if conversation_history ≠ "" then
    ["Previous conversation:\n" ++ conversation_history ++ "\n"] else []) ++
  (if combined_context ≠ "" then
    ["Relevant information from our database:\n" ++ combined_context ++ "\n"]
   else []) ++
  ["Current user query: " ++ user_query ++ "\n",
   "IMPORTANT: The user is communicating in " ++ user_language ++
     ". You MUST respond in " ++ user_language ++ " language.",
   "Please provide a helpful, friendly response based on the context and conversation history."]

/-- Python truthiness of an optional string: `None` and `""` are falsy. -/
def pyTruthy : Option String → Bool
  | none => false
  | some s => s != ""

/-- The fixed apology string substituted on any generation failure. -/
def apology : String := "I apologize, but I encountered an error. Please try again."

/-- The observable effects of one `generate_response_node` run. -/
structure GenEffect where
  prompt : String
  prompt_parts : List String
  handle_in : Option String
  set_conversation : Option String
  deriving Repr, DecidableEq

/-- `generate_response_node`: compose the prompt from recent history, the
retrieved context blocks, the original query and the language directive;
call Abacus with the stored conversation id; on success store the answer and
rewrite the conversation id when the returned one is truthy; on failure
store the fixed apology and record the error in request metadata. -/
def generate_response_node (env : Env) (s : ChatbotState) :
    ChatbotState × GenEffect :=
  let parts := buildPromptParts env.recent_history s.retrieved_contexts
    s.user_query s.user_language
  let full_message := String.intercalate "\n" parts
  let conversation_id := env.stored_conversation_id
  let result := get_conversation_response env.abacus full_message conversation_id
  if result.success then
    let setCall := if pyTruthy result.conversation_id then result.conversation_id
      else none
    ({ s with final_response := result.answer },
     ⟨full_message, parts, conversation_id, setCall⟩)
  else
    ({ s with
        final_response := apology
        metadata := dictSet s.metadata "error" ((result.error).getD "None") },
     ⟨full_message, parts, conversation_id, none⟩)

/-- The configured rejection text, `GuardrailConfig.rejection_message` of
`app/core/config.py`, verbatim. -/
def rejection_message : String :=
  "I'm an e-commerce assistant designed to help with shopping-related questions. \nI can assist you with:\n- Finding and recommending products\n- Product specifications and details\n- Pricing and promotions\n- Shipping and delivery information\n- Order tracking\n- Returns and refunds\n- Customer reviews\n\nHow can I help you with your shopping today?"

/-- `reject_query_node`: return the configured rejection message, translated
into the user's language when it is not English; a translation failure falls
back to the canonical rejection text. -/
def reject_query_node (env : Env) (s : ChatbotState) : ChatbotState :=
  if strToLower s.user_language ≠ "english" then
    match env.reject_translation with
    | .ok translated => { s with final_response := translated }
    | .error _ => { s with final_response := rejection_message }
  else
    { s with final_response := rejection_message }

/-- The observable trace of one graph execution. -/
structure Trace where
  visited : List String
  search_queries : List (String × String)
  generator_prompt : Option String
  generator_parts : Option (List String)
  generator_handle_in : Option String
  set_conversation : Option String
  deriving Repr, DecidableEq

/-- The compiled LangGraph workflow of `_build_graph`: entry point
`guardrail_check`, conditional edges to `retrieve_knowledge`,
`generate_response` or `reject_query`, an unconditional edge
`retrieve_knowledge → generate_response`, and `generate_response` /
`reject_query` both terminal. -/
def runGraph (env : Env) (s0 : ChatbotState) : ChatbotState × Trace :=
  let s1 := guardrail_check_node env s0
  let r := route_after_guardrail s1
  if r = "reject" then
    (reject_query_node env s1,
     ⟨["guardrail_check", "reject_query"], [], none, none, none, none⟩)
  else if r = "direct_response" then
    let sg := generate_response_node env s1
    (sg.1, ⟨["guardrail_check", "generate_response"], [], some sg.2.prompt,
            some sg.2.prompt_parts, sg.2.handle_in, sg.2.set_conversation⟩)
  else
    let sq := retrieve_knowledge_node env s1
    let sg := generate_response_node env sq.1
    (sg.1, ⟨["guardrail_check", "retrieve_knowledge", "generate_response"],
            sq.2, some sg.2.prompt, some sg.2.prompt_parts, sg.2.handle_in,
            sg.2.set_conversation⟩)

/-- The inbound request, `chatbot_request` (the fields the orchestrator
reads). -/
structure ChatRequest where
  user_id : String
  message : String
  deriving Repr, DecidableEq

/-- The initial `ChatbotState` built by `chat` for a request. -/
def initial_state (req : ChatRequest) : ChatbotState :=
  { user_query := req.message
    user_id := req.user_id
    conversation_id := none
    user_language := "English"
    english_query := req.message
    is_ecommerce_query := false
    is_followup := false
    skip_retrieval := false
    retrieved_contexts := []
    final_response := ""
    metadata := [] }

/-- Modelled from the spec: `app/utils/cache_manager.py` is not in the
source tree, so `cache_manager.update_history` is taken from spec §4.1
(`End`) and §4.5 — append the `Exchange{message, response}` to the user's
recent history and persist it, truncating the oldest entries to the
configured bound on write. -/
def update_history (bound : Nat) (history : List HistoryItem)
    (message response : String) : List HistoryItem :=
  let h := history ++ [⟨message, response⟩]
  h.drop (h.length - bound)

/-- The outcome of one `chat` call: the HTTP-level response body (only the
response string — `chat` returns `chatbot_response(response=...)` with no
metadata), the final graph state, the execution trace, the history-update
calls issued (user id with the appended exchange), and the history as
persisted. -/
structure ChatResult where
  response : String
  state : ChatbotState
  trace : Trace
  history_updates : List (String × HistoryItem)
  persisted_history : List HistoryItem
  deriving Repr, DecidableEq

/-- `EcommerceChatbotAgent.chat`: build the initial state, run the graph,
then unconditionally record the exchange (original message, final response)
in the user's history, and answer with the final response text only. -/
def chat (env : Env) (req : ChatRequest) : ChatResult :=
  let ft := runGraph env (initial_state req)
  { response := ft.1.final_response
    state := ft.1
    trace := ft.2
    history_updates := [(req.user_id, ⟨req.message, ft.1.final_response⟩)]
    persisted_history :=
      update_history env.history_bound env.recent_history req.message
        ft.1.final_response }

/-- The raw result dict a ChromaDB `collection.query` call returns the
fields `search_products` reads: per-query lists of ids, flattened metadata
dicts, and distances. -/
structure QueryResult where
  ids : List (List String)
  metadatas : List (List (List (String × String)))
  distances : List (List ℚ)
  deriving Repr, DecidableEq

/-- One iteration of the result loop in
`ProductKnowledgeManager.search_products`: index `i` of
`results['metadatas'][0]`.  `none` is a raised `IndexError` (caught by the
surrounding `try`). -/
def resultAt (results : QueryResult) (i : Nat)
    (metadata : List (String × String)) : Option SearchResult := do
  let id ← match results.ids with
    | [] => some ""
    | ids0 :: _ => ids0.get? i
  let score ← match results.distances with
    | [] => some (0 : ℚ)
    | d0 :: _ => (d0.get? i).map (fun d => 1 - d)
  some ⟨id, metadata, score⟩

/-- `ProductKnowledgeManager.search_products` applied to the raw store
result: build a `SearchResult` per metadata entry with
`relevance_score = 1 - distance`; any exception returns `[]`. -/
def search_products (results : QueryResult) : List SearchResult :=
  match results.metadatas with
  | [] => []
  | metas0 :: _ =>
      match metas0.enum.mapM (fun p => resultAt results p.1 p.2) with
      | some l => l
      | none => []

/-! ### Derived characterisations used by the theorems -/

/-- The state `guardrail_check_node` produces on a successful classification,
parameterised by the query that will be used for retrieval. -/
def guardrailBase (c : ClassificationResult) (q : String) (s : ChatbotState) :
    ChatbotState :=
  { s with
    user_language := c.language
    is_followup := c.is_followup
    is_ecommerce_query := c.is_ecommerce
    skip_retrieval := c.is_followup
    english_query := q }

/-- The query `guardrail_check_node` leaves in `english_query`: the trimmed
translation for a non-English query when translation succeeds, the original
query otherwise. -/
def effectiveQuery (env : Env) (c : ClassificationResult) (orig : String) :
    String :=
  if strToLower c.language ≠ "english" then
    match env.translation with
    | .ok t => pyStrip t
    | .error _ => orig
  else orig

/-- The `retrieved_contexts` entry one source contributes: present (with the
formatted snippets) exactly when the source succeeded with a non-empty
result list. -/
def sourceEntry (key : String) (fmt : SearchResult → String)
    (o : Call (List SearchResult)) : List (String × List String) :=
  match o with
  | .ok r => if r ≠ [] then [(key, r.map fmt)] else []
  | .error _ => []

/-- The metadata entry one source contributes: its error message exactly
when the source raised. -/
def sourceErr (errKey : String) (o : Call (List SearchResult)) :
    List (String × String) :=
  match o with
  | .ok _ => []
  | .error e => [(errKey, e)]

/-- The full `retrieved_contexts` produced by `retrieve_knowledge_node` when
it starts from an empty mapping. -/
def retrieveCtxs (env : Env) : List (String × List String) :=
  sourceEntry "products" formatProduct env.productsR ++
  sourceEntry "services" formatService env.servicesR ++
  sourceEntry "consultations" formatConsultation env.consultationsR ++
  sourceEntry "specialists" formatSpecialist env.specialistsR

/-- The metadata `retrieve_knowledge_node` accumulates when it starts from an
empty mapping. -/
def retrieveMeta (env : Env) : List (String × String) :=
  sourceErr "product_error" env.productsR ++
  sourceErr "service_error" env.servicesR ++
  sourceErr "consultation_error" env.consultationsR ++
  sourceErr "specialist_error" env.specialistsR

/-- The error message `get_conversation_response` reports for a failing
backend (`none` when the backend succeeds). -/
def abacusError : AbacusBackend → Option String
  | .noClient => some "Abacus client not initialized"
  | .err m => some m
  | .ok _ => none

/-! ### Concrete fixtures for witness runs -/

/-- A concrete oracle: in-domain English non-follow-up classification, a
queried-but-empty products source, a failing consultations source, and a
successful generation backend. -/
def envW : Env :=
  { recent_history := [⟨"hi", "hello"⟩]
    classification := .ok ⟨"English", false, true, ""⟩
    translation := .ok " translated "
    productsR := .ok []
    servicesR := .ok [⟨"s1", [("name", "Cut"), ("price", "5")], 0⟩]
    consultationsR := .error "cboom"
    specialistsR := .ok [⟨"sp1", [("name", "Ann")], 0⟩]
    stored_conversation_id := some "cid"
    abacus := .ok "answer"
    reject_translation := .ok "rejTrans"
    history_bound := 10 }

/-- A concrete request. -/
def reqW : ChatRequest := ⟨"user1", "what phones?"⟩

/-- A raw vector-store query result whose single hit has distance `2`. -/
def qresC9 : QueryResult := ⟨[["a"]], [[[("t", "x")]]], [[2]]⟩

/-- `envW` with a follow-up classification. -/
def envFollowup : Env :=
  { envW with classification := .ok ⟨"English", true, true, ""⟩ }

/-- `envW` with a raising/unparseable classification call. -/
def envClassFail : Env := { envW with classification := .error "parse" }

/-- `envW` with a raising products source. -/
def envProdFail : Env := { envW with productsR := .error "down" }

/-- `envW` with a raising generation backend. -/
def envAbacusFail : Env := { envW with abacus := .err "boom" }

/-- `envW` with an in-domain fresh Arabic-language classification. -/
def envArabic : Env :=
  { envW with classification := .ok ⟨"Arabic", false, true, ""⟩ }

/-- `envW` with an out-of-domain Arabic-language classification. -/
def envArabicReject : Env :=
  { envW with classification := .ok ⟨"Arabic", false, false, ""⟩ }

/-- `envW` with no stored conversation handle. -/
def envNoHandle : Env := { envW with stored_conversation_id := none }

/-! ### Association-list lemmas -/

theorem dictGet_dictSet_same (d : List (String × α)) (k : String) (v : α) :
    dictGet (dictSet d k v) k = some v := by
  induction d with
  | nil => simp [dictSet, dictGet]
  | cons p rest ih =>
      by_cases h : p.1 = k
      · simp [dictSet, dictGet, h]
      · simp [dictSet, dictGet, h, ih]

theorem dictGet_dictSet_other (d : List (String × α)) (k k' : String) (v : α)
    (h : k ≠ k') : dictGet (dictSet d k' v) k = dictGet d k := by
  have h' : ¬ (k' = k) := fun hh => h hh.symm
  induction d with
  | nil => simp [dictSet, dictGet, h']
  | cons p rest ih =>
      by_cases hp : p.1 = k'
      · have hpk : ¬ p.1 = k := by rw [hp]; exact h'
        simp [dictSet, dictGet, hp, hpk, h']
      · simp [dictSet, dictGet, hp, ih]

theorem dictSet_of_get_none (d : List (String × α)) (k : String) (v : α)
    (h : dictGet d k = none) : dictSet d k v = d ++ [(k, v)] := by
  induction d with
  | nil => simp [dictSet]
  | cons p rest ih =>
      by_cases hp : p.1 = k
      · simp [dictGet, hp] at h
      · simp [dictGet, hp] at h
        simp [dictSet, hp, ih h]

theorem dictGet_append (a b : List (String × α)) (k : String) :
    dictGet (a ++ b) k =
      match dictGet a k with
      | some v => some v
      | none => dictGet b k := by
  induction a with
  | nil => simp [dictGet]
  | cons p rest ih =>
      by_cases hp : p.1 = k <;> simp [dictGet, hp, ih]

theorem dictGet_append_none (a b : List (String × α)) (k : String)
    (ha : dictGet a k = none) (hb : dictGet b k = none) :
    dictGet (a ++ b) k = none := by
  simp [dictGet_append, ha, hb]

theorem dictGet_sourceEntry_ne (key k : String) (fmt : SearchResult → String)
    (o : Call (List SearchResult)) (h : ¬ key = k) :
    dictGet (sourceEntry key fmt o) k = none := by
  cases o with
  | ok r => by_cases hr : r = [] <;> simp [sourceEntry, dictGet, hr, h]
  | error e => simp [sourceEntry, dictGet]

theorem dictGet_sourceErr_ne (ek k : String) (o : Call (List SearchResult))
    (h : ¬ ek = k) : dictGet (sourceErr ek o) k = none := by
  cases o <;> simp [sourceErr, dictGet, h]

/-! ### Node characterisations -/

theorem guardrail_ok_eq (env : Env) (s : ChatbotState)
    (c : ClassificationResult) (h : env.classification = .ok c) :
    guardrail_check_node env s =
      guardrailBase c (effectiveQuery env c s.user_query) s := by
  simp only [guardrail_check_node, h, guardrailBase, effectiveQuery]
  by_cases hl : strToLower c.language = "english"
  · simp [hl]
  · cases ht : env.translation <;> simp [hl, ht]

theorem guardrail_error_eq (env : Env) (s : ChatbotState) (e : String)
    (h : env.classification = .error e) :
    guardrail_check_node env s =
      guardrailBase ⟨"English", false, true, ""⟩ s.user_query s := by
  simp [guardrail_check_node, h, guardrailBase]

theorem storeSource_eq (k ek : String) (fmt : SearchResult → String)
    (o : Call (List SearchResult)) (s : ChatbotState)
    (hc : dictGet s.retrieved_contexts k = none)
    (hm : dictGet s.metadata ek = none) :
    storeSource k ek fmt o s =
      { s with
        retrieved_contexts := s.retrieved_contexts ++ sourceEntry k fmt o
        metadata := s.metadata ++ sourceErr ek o } := by
  cases o with
  | ok r =>
      by_cases hr : r = []
      · simp [storeSource, sourceEntry, sourceErr, hr]
      · simp [storeSource, sourceEntry, sourceErr, hr,
          dictSet_of_get_none _ _ _ hc]
  | error e =>
      simp [storeSource, sourceEntry, sourceErr, dictSet_of_get_none _ _ _ hm]

theorem retrieve_eq (env : Env) (s : ChatbotState)
    (hc : s.retrieved_contexts = []) (hm : s.metadata = []) :
    retrieve_knowledge_node env s =
      ({ s with
          retrieved_contexts := retrieveCtxs env
          metadata := retrieveMeta env },
       [("products", s.english_query), ("services", s.english_query),
        ("consultations", s.english_query), ("specialists", s.english_query)]) := by
  rcases s with ⟨uq, uid, cid, ul, eq', ie, fu, sk, ctx, fr, md⟩
  simp only at hc hm
  subst hc; subst hm
  rcases hP : env.productsR with p | p <;>
  rcases hS : env.servicesR with q | q <;>
  rcases hC : env.consultationsR with r | r <;>
  rcases hSp : env.specialistsR with t | t <;>
    simp only [retrieve_knowledge_node, storeSource, sourceEntry, sourceErr,
      retrieveCtxs, retrieveMeta, hP, hS, hC, hSp] <;>
    first
      | (split_ifs <;> simp_all [dictSet])
      | simp_all [dictSet]

theorem generate_ok_eq (env : Env) (s : ChatbotState) (a : String)
    (h : env.abacus = .ok a) :
    generate_response_node env s =
      ({ s with final_response := a },
       ⟨String.intercalate "\n" (buildPromptParts env.recent_history
          s.retrieved_contexts s.user_query s.user_language),
        buildPromptParts env.recent_history s.retrieved_contexts
          s.user_query s.user_language,
        env.stored_conversation_id,
        if pyTruthy env.stored_conversation_id then env.stored_conversation_id
        else none⟩) := by
  simp [generate_response_node, get_conversation_response, h]

theorem generate_fail_eq (env : Env) (s : ChatbotState) (m : String)
    (h : abacusError env.abacus = some m) :
    generate_response_node env s =
      ({ s with
          final_response := apology
          metadata := dictSet s.metadata "error" m },
       ⟨String.intercalate "\n" (buildPromptParts env.recent_history
          s.retrieved_contexts s.user_query s.user_language),
        buildPromptParts env.recent_history s.retrieved_contexts
          s.user_query s.user_language,
        env.stored_conversation_id, none⟩) := by
  cases hb : env.abacus with
  | noClient =>
      rw [hb] at h
      simp only [abacusError, Option.some.injEq] at h
      subst h
      simp [generate_response_node, get_conversation_response, hb]
  | ok a => rw [hb] at h; simp [abacusError] at h
  | err e =>
      rw [hb] at h
      simp only [abacusError, Option.some.injEq] at h
      subst h
      simp [generate_response_node, get_conversation_response, hb]

theorem route_base (c : ClassificationResult) (q : String) (s : ChatbotState) :
    route_after_guardrail (guardrailBase c q s) =
      if c.is_ecommerce = false then "reject"
      else if c.is_followup then "direct_response"
      else "retrieve" := by
  cases he : c.is_ecommerce <;> cases hf : c.is_followup <;>
    simp [route_after_guardrail, guardrailBase, he, hf]

theorem runGraph_reject (env : Env) (s0 : ChatbotState)
    (h : route_after_guardrail (guardrail_check_node env s0) = "reject") :
    runGraph env s0 =
      (reject_query_node env (guardrail_check_node env s0),
       ⟨["guardrail_check", "reject_query"], [], none, none, none, none⟩) := by
  simp [runGraph, h]

theorem runGraph_direct (env : Env) (s0 : ChatbotState)
    (h : route_after_guardrail (guardrail_check_node env s0) =
      "direct_response") :
    runGraph env s0 =
      ((generate_response_node env (guardrail_check_node env s0)).1,
       ⟨["guardrail_check", "generate_response"], [],
        some (generate_response_node env (guardrail_check_node env s0)).2.prompt,
        some (generate_response_node env
          (guardrail_check_node env s0)).2.prompt_parts,
        (generate_response_node env (guardrail_check_node env s0)).2.handle_in,
        (generate_response_node env
          (guardrail_check_node env s0)).2.set_conversation⟩) := by
  simp [runGraph, h]

theorem runGraph_retrieve (env : Env) (s0 : ChatbotState)
    (h : route_after_guardrail (guardrail_check_node env s0) = "retrieve") :
    runGraph env s0 =
      ((generate_response_node env
          (retrieve_knowledge_node env (guardrail_check_node env s0)).1).1,
       ⟨["guardrail_check", "retrieve_knowledge", "generate_response"],
        (retrieve_knowledge_node env (guardrail_check_node env s0)).2,
        some (generate_response_node env
          (retrieve_knowledge_node env (guardrail_check_node env s0)).1).2.prompt,
        some (generate_response_node env
          (retrieve_knowledge_node env
            (guardrail_check_node env s0)).1).2.prompt_parts,
        (generate_response_node env
          (retrieve_knowledge_node env
            (guardrail_check_node env s0)).1).2.handle_in,
        (generate_response_node env
          (retrieve_knowledge_node env
            (guardrail_check_node env s0)).1).2.set_conversation⟩) := by
  simp [runGraph, h]

theorem chat_state (env : Env) (req : ChatRequest) :
    (chat env req).state = (runGraph env (initial_state req)).1 := rfl

theorem chat_trace (env : Env) (req : ChatRequest) :
    (chat env req).trace = (runGraph env (initial_state req)).2 := rfl

theorem chat_response (env : Env) (req : ChatRequest) :
    (chat env req).response =
      (runGraph env (initial_state req)).1.final_response := rfl

theorem intercalate_go_length (l : List String) (acc s : String) :
    acc.length ≤ (String.intercalate.go acc s l).length := by
  induction l generalizing acc with
  | nil => simp [String.intercalate.go]
  | cons a as ih =>
      calc acc.length ≤ (acc ++ s ++ a).length := by
            simp only [String.length_append]
            omega
        _ ≤ _ := by
            rw [String.intercalate.go]
            exact ih (acc ++ s ++ a)

theorem intercalate_cons_ne_empty (a : String) (as : List String) (s : String)
    (ha : a.length ≠ 0) : String.intercalate s (a :: as) ≠ "" := by
  intro hcontr
  have h1 : a.length ≤ (String.intercalate s (a :: as)).length := by
    rw [String.intercalate]
    exact intercalate_go_length as a s
  rw [hcontr] at h1
  simp at h1
  exact ha h1

theorem lastN_ne_nil (l : List α) (h : l ≠ []) (n : Nat) (hn : n ≠ 0) :
    lastN n l ≠ [] := by
  have hl : 0 < l.length := List.length_pos.mpr h
  simp only [lastN, ne_eq, List.drop_eq_nil_iff]
  omega

theorem conversation_history_ne_empty (l : List HistoryItem) (h : l ≠ []) :
    String.intercalate "\n" (historyLines (lastN 3 l)) ≠ "" := by
  have h3 : lastN 3 l ≠ [] := lastN_ne_nil l h 3 (by omega)
  cases hl : lastN 3 l with
  | nil => exact absurd hl h3
  | cons x t =>
      simp only [historyLines, List.map_cons, List.flatten_cons]
      refine intercalate_cons_ne_empty _ _ _ ?_
      rw [String.length_append]
      have h6 : "User: ".length = 6 := rfl
      omega

theorem generate_parts (env : Env) (s : ChatbotState) :
    (generate_response_node env s).2.prompt_parts =
      buildPromptParts env.recent_history s.retrieved_contexts
        s.user_query s.user_language := by
  simp only [generate_response_node]
  split <;> rfl

theorem english_toLower : strToLower "English" = "english" := rfl

theorem generate_ctx (env : Env) (s : ChatbotState) :
    (generate_response_node env s).1.retrieved_contexts =
      s.retrieved_contexts := by
  simp only [generate_response_node]
  split <;> rfl

theorem reject_ctx (env : Env) (s : ChatbotState) :
    (reject_query_node env s).retrieved_contexts = s.retrieved_contexts := by
  simp only [reject_query_node]
  split
  · split <;> rfl
  · rfl

theorem sourceEntry_error (key : String) (fmt : SearchResult → String)
    (e : String) : sourceEntry key fmt (.error e) = [] := rfl

theorem sourceEntry_ok (key : String) (fmt : SearchResult → String)
    (r : List SearchResult) :
    sourceEntry key fmt (.ok r) = if r ≠ [] then [(key, r.map fmt)] else [] :=
  rfl

theorem dictGet_retrieveCtxs_products (env : Env) :
    dictGet (retrieveCtxs env) "products" =
      (match env.productsR with
       | .ok ps => if ps = [] then none else some (ps.map formatProduct)
       | .error _ => none) := by
  rcases h : env.productsR with e | r
  · simp [retrieveCtxs, dictGet_append, dictGet_sourceEntry_ne, h,
      sourceEntry_error, dictGet]
  · by_cases hr : r = [] <;>
      simp [retrieveCtxs, dictGet_append, dictGet_sourceEntry_ne, h,
        sourceEntry_ok, hr, dictGet]

theorem dictGet_retrieveCtxs_services (env : Env) :
    dictGet (retrieveCtxs env) "services" =
      (match env.servicesR with
       | .ok ss => if ss = [] then none else some (ss.map formatService)
       | .error _ => none) := by
  rcases h : env.servicesR with e | r
  · simp [retrieveCtxs, dictGet_append, dictGet_sourceEntry_ne, h,
      sourceEntry_error, dictGet]
  · by_cases hr : r = [] <;>
      simp [retrieveCtxs, dictGet_append, dictGet_sourceEntry_ne, h,
        sourceEntry_ok, hr, dictGet]

theorem dictGet_retrieveCtxs_consultations (env : Env) :
    dictGet (retrieveCtxs env) "consultations" =
      (match env.consultationsR with
       | .ok cs => if cs = [] then none else some (cs.map formatConsultation)
       | .error _ => none) := by
  rcases h : env.consultationsR with e | r
  · simp [retrieveCtxs, dictGet_append, dictGet_sourceEntry_ne, h,
      sourceEntry_error, dictGet]
  · by_cases hr : r = [] <;>
      simp [retrieveCtxs, dictGet_append, dictGet_sourceEntry_ne, h,
        sourceEntry_ok, hr, dictGet]

theorem dictGet_retrieveCtxs_specialists (env : Env) :
    dictGet (retrieveCtxs env) "specialists" =
      (match env.specialistsR with
       | .ok ts => if ts = [] then none else some (ts.map formatSpecialist)
       | .error _ => none) := by
  rcases h : env.specialistsR with e | r
  · simp [retrieveCtxs, dictGet_append, dictGet_sourceEntry_ne, h,
      sourceEntry_error, dictGet]
  · by_cases hr : r = [] <;>
      simp [retrieveCtxs, dictGet_append, dictGet_sourceEntry_ne, h,
        sourceEntry_ok, hr, dictGet]

theorem chat_updates (env : Env) (req : ChatRequest) :
    (chat env req).history_updates =
      [(req.user_id,
        ⟨req.message, (runGraph env (initial_state req)).1.final_response⟩)] :=
  rfl

/-! ### Claim theorems -/

/-- C1: after classification, routing is a deterministic function of the
classification result: `isEcommerce = false` routes to the reject node and
nothing else runs; otherwise `isFollowUp = true` routes directly to the
generate node — no knowledge-source search is issued, yet the generator's
prompt is still built from the session's recent history (and when that
history is non-empty the prompt carries the rendered previous conversation);
otherwise the graph visits retrieve and then generate. -/
theorem C1_routing_after_classification (env : Env) (req : ChatRequest)
    (c : ClassificationResult) (h : env.classification = .ok c) :
    (c.is_ecommerce = false →
      (chat env req).trace.visited = ["guardrail_check", "reject_query"] ∧
      (chat env req).trace.search_queries = [] ∧
      (chat env req).trace.generator_prompt = none) ∧
    (c.is_ecommerce = true → c.is_followup = true →
      (chat env req).trace.visited = ["guardrail_check", "generate_response"] ∧
      (chat env req).trace.search_queries = [] ∧
      (chat env req).trace.generator_parts =
        some (buildPromptParts env.recent_history [] req.message c.language) ∧
      (env.recent_history ≠ [] →
        ("Previous conversation:\n" ++
          String.intercalate "\n" (historyLines (lastN 3 env.recent_history)) ++
          "\n") ∈
          buildPromptParts env.recent_history [] req.message c.language)) ∧
    (c.is_ecommerce = true → c.is_followup = false →
      (chat env req).trace.visited =
        ["guardrail_check", "retrieve_knowledge", "generate_response"]) := by
  have hg := guardrail_ok_eq env (initial_state req) c h
  refine ⟨fun he => ?_, fun he hf => ?_, fun he hf => ?_⟩
  · have hroute : route_after_guardrail
        (guardrail_check_node env (initial_state req)) = "reject" := by
      rw [hg, route_base, he]; simp
    rw [chat_trace, runGraph_reject env _ hroute]
    exact ⟨rfl, rfl, rfl⟩
  · have hroute : route_after_guardrail
        (guardrail_check_node env (initial_state req)) = "direct_response" := by
      rw [hg, route_base, he, hf]; simp
    rw [chat_trace, runGraph_direct env _ hroute]
    refine ⟨rfl, rfl, ?_, ?_⟩
    · rw [generate_parts, hg]
      rfl
    · intro hne
      have hcne := conversation_history_ne_empty env.recent_history hne
      simp only [buildPromptParts, context_parts, List.filterMap_nil,
        ne_eq, not_true_eq_false, if_neg, if_pos, List.mem_append,
        List.mem_cons]
      simp [hne, hcne]
  · have hroute : route_after_guardrail
        (guardrail_check_node env (initial_state req)) = "retrieve" := by
      rw [hg, route_base, he, hf]; simp
    rw [chat_trace, runGraph_retrieve env _ hroute]

/-- C2: when the classification call raises or its response does not parse,
the whole request behaves exactly as if classification had returned
`{language: "English", isFollowUp: false, isEcommerce: true}`, and every
knowledge-source search issued uses the original query text. -/
theorem C2_classification_failure_fail_open (env : Env) (req : ChatRequest)
    (e : String) (h : env.classification = .error e) :
    chat env req =
      chat { env with classification := .ok ⟨"English", false, true, ""⟩ } req ∧
    ∀ p ∈ (chat env req).trace.search_queries, p.2 = req.message := by
  have hg1 := guardrail_error_eq env (initial_state req) e h
  have hg2 := guardrail_ok_eq
    { env with classification := .ok ⟨"English", false, true, ""⟩ }
    (initial_state req) ⟨"English", false, true, ""⟩ rfl
  have heq : effectiveQuery
      { env with classification := .ok ⟨"English", false, true, ""⟩ }
      ⟨"English", false, true, ""⟩ (initial_state req).user_query =
      (initial_state req).user_query := by
    simp [effectiveQuery, english_toLower]
  have hs : guardrail_check_node env (initial_state req) =
      guardrail_check_node
        { env with classification := .ok ⟨"English", false, true, ""⟩ }
        (initial_state req) := by
    rw [hg1, hg2, heq]
  constructor
  · unfold chat runGraph
    rw [hs]
    rfl
  · have hroute : route_after_guardrail
        (guardrail_check_node env (initial_state req)) = "retrieve" := by
      rw [hg1, route_base]; simp
    rw [chat_trace, runGraph_retrieve env _ hroute,
      retrieve_eq env _ (by rw [hg1]; rfl) (by rw [hg1]; rfl), hg1]
    simp [guardrailBase, initial_state]

/-- C8: a request classified as not in-domain is answered with the
configured rejection message — translated when the detected language is not
the default, falling back to the canonical text verbatim when that
translation raises — and neither a knowledge-source search nor a generator
call happens on this branch. -/
theorem C8_reject_message (env : Env) (req : ChatRequest)
    (c : ClassificationResult) (h : env.classification = .ok c)
    (he : c.is_ecommerce = false) :
    (chat env req).trace.search_queries = [] ∧
    (chat env req).trace.generator_prompt = none ∧
    (chat env req).trace.visited = ["guardrail_check", "reject_query"] ∧
    (strToLower c.language = "english" →
      (chat env req).response = rejection_message) ∧
    (strToLower c.language ≠ "english" →
      (∀ t, env.reject_translation = .ok t → (chat env req).response = t) ∧
      (∀ e, env.reject_translation = .error e →
        (chat env req).response = rejection_message)) := by
  have hg := guardrail_ok_eq env (initial_state req) c h
  have hroute : route_after_guardrail
      (guardrail_check_node env (initial_state req)) = "reject" := by
    rw [hg, route_base, he]; simp
  refine ⟨?_, ?_, ?_, ?_, ?_⟩
  · rw [chat_trace, runGraph_reject env _ hroute]
  · rw [chat_trace, runGraph_reject env _ hroute]
  · rw [chat_trace, runGraph_reject env _ hroute]
  · intro hl
    rw [chat_response, runGraph_reject env _ hroute, hg]
    simp [reject_query_node, guardrailBase, hl]
  · intro hl
    constructor
    · intro t ht
      rw [chat_response, runGraph_reject env _ hroute, hg]
      simp [reject_query_node, guardrailBase, hl, ht]
    · intro e' he'
      rw [chat_response, runGraph_reject env _ hroute, hg]
      simp [reject_query_node, guardrailBase, hl, he']

/-- C3 counterexample: at the concrete oracle `envW` the products source is
queried (a products search call is issued) and returns no snippets, yet
`retrieved_contexts` has no `"products"` key at all — the claim instead
demands the key be present with an empty sequence. -/
theorem C3_counterexample :
    envW.productsR = .ok [] ∧
    ("products", "what phones?") ∈ (chat envW reqW).trace.search_queries ∧
    dictGet (chat envW reqW).state.retrieved_contexts "products" = none := by
  refine ⟨rfl, ?_, ?_⟩ <;> decide

/-- C3 (amended): on the retrieve branch a source's key is present in
`retrieved_contexts` exactly when that source was queried and returned at
least one snippet; a queried source that returns no snippets or raises
leaves its key entirely absent, and on the branches where retrieval is
skipped the whole mapping stays empty. -/
theorem C3_amended_empty_source_key_absent (env : Env) (req : ChatRequest)
    (c : ClassificationResult) (h : env.classification = .ok c) :
    (c.is_ecommerce = true → c.is_followup = false →
      dictGet (chat env req).state.retrieved_contexts "products" =
        (match env.productsR with
         | .ok ps => if ps = [] then none else some (ps.map formatProduct)
         | .error _ => none) ∧
      dictGet (chat env req).state.retrieved_contexts "services" =
        (match env.servicesR with
         | .ok ss => if ss = [] then none else some (ss.map formatService)
         | .error _ => none) ∧
      dictGet (chat env req).state.retrieved_contexts "consultations" =
        (match env.consultationsR with
         | .ok cs => if cs = [] then none
           else some (cs.map formatConsultation)
         | .error _ => none) ∧
      dictGet (chat env req).state.retrieved_contexts "specialists" =
        (match env.specialistsR with
         | .ok ts => if ts = [] then none else some (ts.map formatSpecialist)
         | .error _ => none)) ∧
    ((c.is_ecommerce = false ∨ c.is_followup = true) →
      (chat env req).state.retrieved_contexts = []) := by
  have hg := guardrail_ok_eq env (initial_state req) c h
  constructor
  · intro he hf
    have hroute : route_after_guardrail
        (guardrail_check_node env (initial_state req)) = "retrieve" := by
      rw [hg, route_base, he, hf]; simp
    rw [chat_state, runGraph_retrieve env _ hroute,
      retrieve_eq env _ (by rw [hg]; rfl) (by rw [hg]; rfl)]
    rw [generate_ctx]
    exact ⟨dictGet_retrieveCtxs_products env,
      dictGet_retrieveCtxs_services env,
      dictGet_retrieveCtxs_consultations env,
      dictGet_retrieveCtxs_specialists env⟩
  · rintro (he | hf)
    · have hroute : route_after_guardrail
          (guardrail_check_node env (initial_state req)) = "reject" := by
        rw [hg, route_base, he]; simp
      rw [chat_state, runGraph_reject env _ hroute, reject_ctx, hg]
      rfl
    · cases hce : c.is_ecommerce
      · rw [chat_state, runGraph_reject env _ (by
          rw [hg, route_base, hce]; simp), reject_ctx, hg]
        rfl
      · have hroute : route_after_guardrail
            (guardrail_check_node env (initial_state req)) =
            "direct_response" := by
          rw [hg, route_base, hce, hf]; simp
        rw [chat_state, runGraph_direct env _ hroute, generate_ctx, hg]
        rfl

/-- C4: during the knowledge-source fan-out a raised exception in any subset
of sources never prevents the remaining sources' non-empty results from
reaching `retrieved_contexts`, and never prevents the generate stage from
running and producing a final response. -/
theorem C4_source_failure_isolated (env : Env) (req : ChatRequest)
    (c : ClassificationResult) (h : env.classification = .ok c)
    (he : c.is_ecommerce = true) (hf : c.is_followup = false) :
    (chat env req).trace.visited =
      ["guardrail_check", "retrieve_knowledge", "generate_response"] ∧
    (chat env req).trace.generator_prompt.isSome = true ∧
    (∀ ps, env.productsR = .ok ps → ps ≠ [] →
      dictGet (chat env req).state.retrieved_contexts "products" =
        some (ps.map formatProduct)) ∧
    (∀ ss, env.servicesR = .ok ss → ss ≠ [] →
      dictGet (chat env req).state.retrieved_contexts "services" =
        some (ss.map formatService)) ∧
    (∀ cs, env.consultationsR = .ok cs → cs ≠ [] →
      dictGet (chat env req).state.retrieved_contexts "consultations" =
        some (cs.map formatConsultation)) ∧
    (∀ ts, env.specialistsR = .ok ts → ts ≠ [] →
      dictGet (chat env req).state.retrieved_contexts "specialists" =
        some (ts.map formatSpecialist)) := by
  have hg := guardrail_ok_eq env (initial_state req) c h
  have hroute : route_after_guardrail
      (guardrail_check_node env (initial_state req)) = "retrieve" := by
    rw [hg, route_base, he, hf]; simp
  have hctx : (chat env req).state.retrieved_contexts = retrieveCtxs env := by
    rw [chat_state, runGraph_retrieve env _ hroute,
      retrieve_eq env _ (by rw [hg]; rfl) (by rw [hg]; rfl), generate_ctx]
  refine ⟨?_, ?_, ?_, ?_, ?_, ?_⟩
  · rw [chat_trace, runGraph_retrieve env _ hroute]
  · rw [chat_trace, runGraph_retrieve env _ hroute]
    rfl
  · intro ps hps hne
    rw [hctx, dictGet_retrieveCtxs_products env, hps]
    simp [hne]
  · intro ss hss hne
    rw [hctx, dictGet_retrieveCtxs_services env, hss]
    simp [hne]
  · intro cs hcs hne
    rw [hctx, dictGet_retrieveCtxs_consultations env, hcs]
    simp [hne]
  · intro ts hts hne
    rw [hctx, dictGet_retrieveCtxs_specialists env, hts]
    simp [hne]

theorem generate_set_conv (env : Env) (s : ChatbotState) :
    (generate_response_node env s).2.set_conversation = none ∨
    (generate_response_node env s).2.set_conversation =
      env.stored_conversation_id := by
  rcases hb : env.abacus with _ | a | e <;>
    simp only [generate_response_node, get_conversation_response, hb]
  · left; rfl
  · by_cases ht : pyTruthy env.stored_conversation_id = true
    · right; simp [ht]
    · left; simp [ht]
  · left; rfl

/-- C5: whenever the generation backend call fails or reports failure, the
final response is the fixed apology string, no conversation-id write
happens, the failure is recorded only in request-scoped metadata, and the
session still records the apology as the exchange's response — the caller
sees only the apology text, never an error. -/
theorem C5_generation_failure_apology (env : Env) (req : ChatRequest)
    (m : String) (hm : abacusError env.abacus = some m)
    (hgen : (chat env req).trace.generator_prompt.isSome = true) :
    (chat env req).response = apology ∧
    (chat env req).state.final_response = apology ∧
    (chat env req).trace.set_conversation = none ∧
    dictGet (chat env req).state.metadata "error" = some m ∧
    (chat env req).history_updates = [(req.user_id, ⟨req.message, apology⟩)] := by
  have key : ∀ s0 : ChatbotState,
      (generate_response_node env s0).1.final_response = apology ∧
      (generate_response_node env s0).2.set_conversation = none ∧
      dictGet (generate_response_node env s0).1.metadata "error" = some m := by
    intro s0
    rw [generate_fail_eq env s0 m hm]
    exact ⟨rfl, rfl, dictGet_dictSet_same _ _ _⟩
  rcases hcl : env.classification with e | c
  · have hg := guardrail_error_eq env (initial_state req) e hcl
    have hroute : route_after_guardrail
        (guardrail_check_node env (initial_state req)) = "retrieve" := by
      rw [hg, route_base]; simp
    have hR := runGraph_retrieve env _ hroute
    refine ⟨?_, ?_, ?_, ?_, ?_⟩
    · rw [chat_response, hR]; exact (key _).1
    · rw [chat_state, hR]; exact (key _).1
    · rw [chat_trace, hR]; exact (key _).2.1
    · rw [chat_state, hR]; exact (key _).2.2
    · rw [chat_updates, hR, (key _).1]
  · have hg := guardrail_ok_eq env (initial_state req) c hcl
    cases hce : c.is_ecommerce
    · exfalso
      have hroute : route_after_guardrail
          (guardrail_check_node env (initial_state req)) = "reject" := by
        rw [hg, route_base, hce]; simp
      rw [chat_trace, runGraph_reject env _ hroute] at hgen
      simp at hgen
    · cases hcf : c.is_followup
      · have hroute : route_after_guardrail
            (guardrail_check_node env (initial_state req)) = "retrieve" := by
          rw [hg, route_base, hce, hcf]; simp
        have hR := runGraph_retrieve env _ hroute
        refine ⟨?_, ?_, ?_, ?_, ?_⟩
        · rw [chat_response, hR]; exact (key _).1
        · rw [chat_state, hR]; exact (key _).1
        · rw [chat_trace, hR]; exact (key _).2.1
        · rw [chat_state, hR]; exact (key _).2.2
        · rw [chat_updates, hR, (key _).1]
      · have hroute : route_after_guardrail
            (guardrail_check_node env (initial_state req)) =
            "direct_response" := by
          rw [hg, route_base, hce, hcf]; simp
        have hR := runGraph_direct env _ hroute
        refine ⟨?_, ?_, ?_, ?_, ?_⟩
        · rw [chat_response, hR]; exact (key _).1
        · rw [chat_state, hR]; exact (key _).1
        · rw [chat_trace, hR]; exact (key _).2.1
        · rw [chat_state, hR]; exact (key _).2.2
        · rw [chat_updates, hR, (key _).1]

/-- C10: the generation client always hands back exactly the continuation
handle it was given (on success and on failure alike); consequently the
per-user stored handle is only ever rewritten with its current value, and a
user whose session holds no handle never acquires one. -/
theorem C10_handle_rewrite_is_noop (env : Env) (req : ChatRequest) :
    (∀ (b : AbacusBackend) (msg : String) (cid : Option String),
      (get_conversation_response b msg cid).conversation_id = cid) ∧
    ((chat env req).trace.set_conversation = none ∨
      (chat env req).trace.set_conversation = env.stored_conversation_id) ∧
    (env.stored_conversation_id = none →
      (chat env req).trace.set_conversation = none) := by
  have hset : (chat env req).trace.set_conversation = none ∨
      (chat env req).trace.set_conversation = env.stored_conversation_id := by
    rw [chat_trace]
    simp only [runGraph]
    split
    · left; rfl
    · split
      · exact generate_set_conv env _
      · exact generate_set_conv env _
  refine ⟨fun b msg cid => by cases b <;> rfl, hset, fun hnone => ?_⟩
  rcases hset with hs | hs
  · exact hs
  · rw [hs, hnone]

/-- C7: for a non-default-language in-domain fresh query, the translated
(normalised) query is used for the knowledge-source searches only — a failed
translation falls back to the untranslated original for retrieval — while
the generation prompt is built from the original untranslated query together
with the directive to respond in the originally detected language. -/
theorem C7_translation_only_for_retrieval (env : Env) (req : ChatRequest)
    (c : ClassificationResult) (h : env.classification = .ok c)
    (hl : strToLower c.language ≠ "english")
    (he : c.is_ecommerce = true) (hf : c.is_followup = false) :
    (∀ t, env.translation = .ok t →
      (chat env req).trace.search_queries =
        [("products", pyStrip t), ("services", pyStrip t),
         ("consultations", pyStrip t), ("specialists", pyStrip t)]) ∧
    (∀ e, env.translation = .error e →
      (chat env req).trace.search_queries =
        [("products", req.message), ("services", req.message),
         ("consultations", req.message), ("specialists", req.message)]) ∧
    (chat env req).trace.generator_parts =
      some (buildPromptParts env.recent_history (retrieveCtxs env)
        req.message c.language) ∧
    ("IMPORTANT: The user is communicating in " ++ c.language ++
      ". You MUST respond in " ++ c.language ++ " language.") ∈
      buildPromptParts env.recent_history (retrieveCtxs env)
        req.message c.language ∧
    ("Current user query: " ++ req.message ++ "\n") ∈
      buildPromptParts env.recent_history (retrieveCtxs env)
        req.message c.language := by
  have hg := guardrail_ok_eq env (initial_state req) c h
  have hroute : route_after_guardrail
      (guardrail_check_node env (initial_state req)) = "retrieve" := by
    rw [hg, route_base, he, hf]; simp
  have hR := runGraph_retrieve env _ hroute
  have hready := retrieve_eq env (guardrail_check_node env (initial_state req))
    (by rw [hg]; rfl) (by rw [hg]; rfl)
  refine ⟨?_, ?_, ?_, ?_, ?_⟩
  · intro t ht
    rw [chat_trace, hR, hready, hg]
    simp [guardrailBase, effectiveQuery, hl, ht, initial_state]
  · intro e' he'
    rw [chat_trace, hR, hready, hg]
    simp [guardrailBase, effectiveQuery, hl, he', initial_state]
  · rw [chat_trace, hR]
    simp only [generate_parts, hready]
    rw [hg]
    rfl
  · simp [buildPromptParts]
  · simp [buildPromptParts]

/-- C6: after every processed request, whichever branch produced the answer,
exactly one history update is issued, recording the exchange of the original
query with the final response text, and the persisted history is the stored
history with that exchange appended (truncated to the configured bound, so
with a positive bound the new exchange is always its last entry). -/
theorem C6_exchange_always_persisted (env : Env) (req : ChatRequest) :
    (chat env req).history_updates =
      [(req.user_id, ⟨req.message, (chat env req).response⟩)] ∧
    (chat env req).persisted_history =
      update_history env.history_bound env.recent_history req.message
        (chat env req).response ∧
    (1 ≤ env.history_bound →
      (chat env req).persisted_history.getLast? =
        some ⟨req.message, (chat env req).response⟩) := by
  refine ⟨rfl, rfl, fun hb => ?_⟩
  show (update_history env.history_bound env.recent_history req.message
    (chat env req).response).getLast? = _
  unfold update_history
  rw [List.drop_append_of_le_length (by simp; omega)]
  simp

theorem resultAt_enumFrom_mapM (ids0 : List String) (d0 : List ℚ)
    (itl : List (List String)) (M : List (List (List (String × String))))
    (dtl : List (List ℚ)) (metas0 : List (List (String × String))) (k : Nat)
    (hi : k + metas0.length ≤ ids0.length)
    (hd : k + metas0.length ≤ d0.length) :
    ∃ l : List SearchResult,
      (metas0.enumFrom k).mapM
        (fun p => resultAt ⟨ids0 :: itl, M, d0 :: dtl⟩ p.1 p.2) = some l ∧
      l.map (·.relevance_score) =
        ((d0.drop k).take metas0.length).map (fun d => 1 - d) := by
  induction metas0 generalizing k with
  | nil => exact ⟨[], rfl, by simp⟩
  | cons m ms ih =>
      obtain ⟨l, hl, hmap⟩ := ih (k + 1)
        (by simp only [List.length_cons] at hi; omega)
        (by simp only [List.length_cons] at hd; omega)
      have hk_i : k < ids0.length := by
        simp only [List.length_cons] at hi; omega
      have hk_d : k < d0.length := by
        simp only [List.length_cons] at hd; omega
      refine ⟨⟨ids0.get ⟨k, hk_i⟩, m, 1 - d0.get ⟨k, hk_d⟩⟩ :: l, ?_, ?_⟩
      · rw [List.enumFrom, List.mapM_cons]
        have hres : resultAt ⟨ids0 :: itl, M, d0 :: dtl⟩ k m =
            some ⟨ids0.get ⟨k, hk_i⟩, m, 1 - d0.get ⟨k, hk_d⟩⟩ := by
          simp [resultAt, List.getElem?_eq_getElem hk_i,
            List.getElem?_eq_getElem hk_d]
        simp only [hres, hl]
        rfl
      · rw [List.map_cons, hmap, List.length_cons,
          List.drop_eq_getElem_cons hk_d, List.take_succ_cons, List.map_cons]
        rfl

theorem search_products_map_scores (ids0 : List String)
    (metas0 : List (List (String × String))) (d0 : List ℚ)
    (itl : List (List String)) (mtl : List (List (List (String × String))))
    (dtl : List (List ℚ)) (hi : metas0.length = ids0.length)
    (hd : metas0.length = d0.length) :
    (search_products ⟨ids0 :: itl, metas0 :: mtl, d0 :: dtl⟩).map
      (·.relevance_score) = d0.map (fun d => 1 - d) := by
  obtain ⟨l, hl, hmap⟩ := resultAt_enumFrom_mapM ids0 d0 itl (metas0 :: mtl)
    dtl metas0 0 (by omega) (by omega)
  have henum : metas0.enum = metas0.enumFrom 0 := rfl
  simp only [search_products, henum, hl]
  rw [hmap, List.drop_zero, hd, List.take_length]

/-- C9 (amended): every result of a knowledge-source search carries a
relevance score computed as 1 minus the vector-store distance for that hit;
the results keep the store's own order, so the sequence is descending in
score exactly when the store's distances are ascending, and the scores lie
in [0,1] exactly when the distances lie in [0,1] — the code neither clamps
the score nor re-sorts the results. -/
theorem C9_amended_score_is_one_minus_distance (ids0 : List String)
    (metas0 : List (List (String × String))) (d0 : List ℚ)
    (itl : List (List String)) (mtl : List (List (List (String × String))))
    (dtl : List (List ℚ)) (hi : metas0.length = ids0.length)
    (hd : metas0.length = d0.length) :
    ((search_products ⟨ids0 :: itl, metas0 :: mtl, d0 :: dtl⟩).map
      (·.relevance_score) = d0.map (fun d => 1 - d)) ∧
    (d0.Pairwise (· ≤ ·) →
      ((search_products ⟨ids0 :: itl, metas0 :: mtl, d0 :: dtl⟩).map
        (·.relevance_score)).Pairwise (· ≥ ·)) ∧
    ((∀ d ∈ d0, 0 ≤ d ∧ d ≤ 1) →
      ∀ r ∈ search_products ⟨ids0 :: itl, metas0 :: mtl, d0 :: dtl⟩,
        0 ≤ r.relevance_score ∧ r.relevance_score ≤ 1) := by
  have hmain := search_products_map_scores ids0 metas0 d0 itl mtl dtl hi hd
  refine ⟨hmain, fun hasc => ?_, fun hb r hr => ?_⟩
  · rw [hmain, List.pairwise_map]
    exact hasc.imp fun hab => sub_le_sub_left hab 1
  · have hmem : r.relevance_score ∈
        (search_products ⟨ids0 :: itl, metas0 :: mtl, d0 :: dtl⟩).map
          (·.relevance_score) :=
      List.mem_map_of_mem _ hr
    rw [hmain] at hmem
    obtain ⟨d, hdmem, hdeq⟩ := List.mem_map.mp hmem
    obtain ⟨h0, h1⟩ := hb d hdmem
    constructor
    · rw [← hdeq]; linarith
    · rw [← hdeq]; linarith

/-- C9 counterexample: at a store result whose single hit has distance 2 the
computed relevance score is 1 - 2 = -1, outside the interval [0,1] the claim
asserts for every returned result. -/
theorem C9_counterexample :
    (search_products qresC9).map (·.relevance_score) = [1 - 2] ∧
    ¬ (∀ r ∈ search_products qresC9,
        0 ≤ r.relevance_score ∧ r.relevance_score ≤ 1) := by
  have hsp : search_products qresC9 = [⟨"a", [("t", "x")], 1 - 2⟩] := rfl
  refine ⟨by rw [hsp]; rfl, fun hcl => ?_⟩
  have h := (hcl ⟨"a", [("t", "x")], 1 - 2⟩
    (by rw [hsp]; exact List.mem_singleton_self _)).1
  norm_num at h

/-! ### Witnesses: the claim theorems applied at concrete inputs -/

/-- C1 witness: at `envFollowup` the follow-up branch of `C1` runs with its
hypotheses discharged. -/
theorem C1_witness :
    envFollowup.classification = .ok ⟨"English", true, true, ""⟩ ∧
    ((chat envFollowup reqW).trace.visited =
        ["guardrail_check", "generate_response"] ∧
      (chat envFollowup reqW).trace.search_queries = [] ∧
      (chat envFollowup reqW).trace.generator_parts =
        some (buildPromptParts envFollowup.recent_history [] reqW.message
          "English") ∧
      (envFollowup.recent_history ≠ [] →
        ("Previous conversation:\n" ++ String.intercalate "\n"
          (historyLines (lastN 3 envFollowup.recent_history)) ++ "\n") ∈
          buildPromptParts envFollowup.recent_history [] reqW.message
            "English")) :=
  ⟨rfl, (C1_routing_after_classification envFollowup reqW
    ⟨"English", true, true, ""⟩ rfl).2.1 rfl rfl⟩

/-- C2 witness: at `envClassFail` the fail-open equivalence of `C2` holds
with its hypothesis discharged. -/
theorem C2_witness :
    envClassFail.classification = .error "parse" ∧
    chat envClassFail reqW =
      chat { envClassFail with
        classification := .ok ⟨"English", false, true, ""⟩ } reqW ∧
    ∀ p ∈ (chat envClassFail reqW).trace.search_queries, p.2 = reqW.message :=
  ⟨rfl,
    (C2_classification_failure_fail_open envClassFail reqW "parse" rfl).1,
    (C2_classification_failure_fail_open envClassFail reqW "parse" rfl).2⟩

/-- C3 witness: at `envW` the amended key-presence rule of `C3` holds with
its hypotheses discharged. -/
theorem C3_amended_witness :
    envW.classification = .ok ⟨"English", false, true, ""⟩ ∧
    dictGet (chat envW reqW).state.retrieved_contexts "products" = none ∧
    dictGet (chat envW reqW).state.retrieved_contexts "services" =
      some (([⟨"s1", [("name", "Cut"), ("price", "5")], 0⟩] :
        List SearchResult).map formatService) ∧
    dictGet (chat envW reqW).state.retrieved_contexts "consultations" =
      none ∧
    dictGet (chat envW reqW).state.retrieved_contexts "specialists" =
      some (([⟨"sp1", [("name", "Ann")], 0⟩] :
        List SearchResult).map formatSpecialist) := by
  have h := (C3_amended_empty_source_key_absent envW reqW
    ⟨"English", false, true, ""⟩ rfl).1 rfl rfl
  exact ⟨rfl, h.1, h.2.1, h.2.2.1, h.2.2.2⟩

/-- C4 witness: at `envProdFail` a failed products source leaves the other
sources' results in context and the generator still runs. -/
theorem C4_witness :
    envProdFail.classification = .ok ⟨"English", false, true, ""⟩ ∧
    (chat envProdFail reqW).trace.visited =
      ["guardrail_check", "retrieve_knowledge", "generate_response"] ∧
    (chat envProdFail reqW).trace.generator_prompt.isSome = true ∧
    dictGet (chat envProdFail reqW).state.retrieved_contexts "services" =
      some (([⟨"s1", [("name", "Cut"), ("price", "5")], 0⟩] :
        List SearchResult).map formatService) := by
  have h := C4_source_failure_isolated envProdFail reqW
    ⟨"English", false, true, ""⟩ rfl rfl rfl
  exact ⟨rfl, h.1, h.2.1, h.2.2.2.1 _ rfl (by decide)⟩

/-- C5 witness: at `envAbacusFail` the generation-failure contract of `C5`
holds with its hypotheses discharged. -/
theorem C5_witness :
    abacusError envAbacusFail.abacus = some "boom" ∧
    (chat envAbacusFail reqW).trace.generator_prompt.isSome = true ∧
    (chat envAbacusFail reqW).response = apology ∧
    (chat envAbacusFail reqW).trace.set_conversation = none ∧
    dictGet (chat envAbacusFail reqW).state.metadata "error" = some "boom" ∧
    (chat envAbacusFail reqW).history_updates =
      [(reqW.user_id, ⟨reqW.message, apology⟩)] := by
  have h := C5_generation_failure_apology envAbacusFail reqW "boom" rfl
    (by decide)
  exact ⟨rfl, by decide, h.1, h.2.2.1, h.2.2.2.1, h.2.2.2.2⟩

/-- C6 witness: at `envW` the exchange is persisted with the positive-bound
conclusion discharged. -/
theorem C6_witness :
    1 ≤ envW.history_bound ∧
    (chat envW reqW).history_updates =
      [(reqW.user_id, ⟨reqW.message, (chat envW reqW).response⟩)] ∧
    (chat envW reqW).persisted_history.getLast? =
      some ⟨reqW.message, (chat envW reqW).response⟩ := by
  have h := C6_exchange_always_persisted envW reqW
  exact ⟨by decide, h.1, h.2.2 (by decide)⟩

/-- C7 witness: at `envArabic` the translated query reaches only the search
calls and the generator prompt is built from the original query and the
Arabic language directive. -/
theorem C7_witness :
    envArabic.classification = .ok ⟨"Arabic", false, true, ""⟩ ∧
    strToLower "Arabic" ≠ "english" ∧
    (chat envArabic reqW).trace.search_queries =
      [("products", pyStrip " translated "),
       ("services", pyStrip " translated "),
       ("consultations", pyStrip " translated "),
       ("specialists", pyStrip " translated ")] ∧
    (chat envArabic reqW).trace.generator_parts =
      some (buildPromptParts envArabic.recent_history (retrieveCtxs envArabic)
        reqW.message "Arabic") := by
  have h := C7_translation_only_for_retrieval envArabic reqW
    ⟨"Arabic", false, true, ""⟩ rfl (by decide) rfl rfl
  exact ⟨rfl, by decide, h.1 " translated " rfl, h.2.2.1⟩

/-- C8 witness: at `envArabicReject` the rejection is translated and no
search or generation happens. -/
theorem C8_witness :
    envArabicReject.classification = .ok ⟨"Arabic", false, false, ""⟩ ∧
    (chat envArabicReject reqW).trace.search_queries = [] ∧
    (chat envArabicReject reqW).trace.generator_prompt = none ∧
    (chat envArabicReject reqW).response = "rejTrans" := by
  have h := C8_reject_message envArabicReject reqW
    ⟨"Arabic", false, false, ""⟩ rfl rfl
  exact ⟨rfl, h.1, h.2.1, (h.2.2.2.2 (by decide)).1 "rejTrans" rfl⟩

/-- C9 witness: the amended score law of `C9` applied to a one-hit store
result at distance 1/2, with the shape hypotheses discharged. -/
theorem C9_amended_witness :
    ([[("k", "v")]] : List (List (String × String))).length =
      (["a"] : List String).length ∧
    ([[("k", "v")]] : List (List (String × String))).length =
      ([(1 : ℚ)/2] : List ℚ).length ∧
    (((search_products
        ⟨["a"] :: [], [[("k", "v")]] :: [], [(1 : ℚ)/2] :: []⟩).map
        (·.relevance_score) = ([(1 : ℚ)/2]).map (fun d => 1 - d)) ∧
      (([(1 : ℚ)/2]).Pairwise (· ≤ ·) →
        ((search_products
          ⟨["a"] :: [], [[("k", "v")]] :: [], [(1 : ℚ)/2] :: []⟩).map
          (·.relevance_score)).Pairwise (· ≥ ·)) ∧
      ((∀ d ∈ ([(1 : ℚ)/2] : List ℚ), 0 ≤ d ∧ d ≤ 1) →
        ∀ r ∈ search_products
          ⟨["a"] :: [], [[("k", "v")]] :: [], [(1 : ℚ)/2] :: []⟩,
          0 ≤ r.relevance_score ∧ r.relevance_score ≤ 1)) :=
  ⟨rfl, rfl, C9_amended_score_is_one_minus_distance ["a"] [[("k", "v")]]
    [(1 : ℚ)/2] [] [] [] rfl rfl⟩

/-- C10 witness: at `envNoHandle` a user with no stored handle never
acquires one. -/
theorem C10_witness :
    envNoHandle.stored_conversation_id = none ∧
    (chat envNoHandle reqW).trace.set_conversation = none :=
  ⟨rfl, (C10_handle_rewrite_is_noop envNoHandle reqW).2.2 rfl⟩

end Noviro
